import Mathlib

/-!
# Verification of the FNIRSI IR40 BLE session script

Shallow embedding of `src/ir40-dbus-final.py` and proofs about it.

Conventions of the embedding:
* A Python `bytes` value is a `List Byte` with `Byte := Fin 256`.
* A guarded index access `data[i]` is `byteAt`, which yields `indexError`
  when out of range, mirroring Python's `IndexError`.
* A Python slice `data[lo:hi]` never raises; it clips, mirrored by `pySlice`.
* `int.from_bytes(bs, "big")` is `intFromBytesBE`.
* The event-driven parts of `main` and the asyncio tasks are embedded as
  explicit traces over oracles for the transport (whether a write succeeds,
  whether ServicesResolved has become true at a given poll).
-/

abbrev Byte := Fin 256

/-- Result of running a piece of Python code that may raise `IndexError`. -/
inductive PyResult (α : Type) where
  | ok (val : α)
  | indexError
  deriving DecidableEq, Repr

/-- `data[i]` for `bytes`: raises `IndexError` when `i` is out of range. -/
def byteAt (data : List Byte) (i : Nat) : PyResult Byte :=
  match data[i]? with
  | some b => .ok b
  | none => .indexError

/-- `data[lo:hi]` for `bytes` with `0 ≤ lo ≤ hi`: clips, never raises. -/
def pySlice (data : List Byte) (lo hi : Nat) : List Byte :=
  (data.take hi).drop lo

/-- `int.from_bytes(bs, "big")`. -/
def intFromBytesBE (bs : List Byte) : Nat :=
  bs.foldl (fun acc b => acc * 256 + b.val) 0

/-- Embedding of `parse_distance_mm` (src/ir40-dbus-final.py, lines 16-30):

    if len(data) >= 17 and data[0] == 0x00 and data[2] == 0x02:
        dist_mm = int.from_bytes(data[14:16], "big")
        if dist_mm > 0:
            return dist_mm
    return None

`and` short-circuits, so `data[0]` and `data[2]` are only evaluated once
`len(data) >= 17` held. `ok none` is Python's `return None`. -/
def parse_distance_mm (data : List Byte) : PyResult (Option Nat) :=
  if 17 ≤ data.length then
    match byteAt data 0 with
    | .indexError => .indexError
    | .ok b0 =>
      if b0 = 0x00 then
        match byteAt data 2 with
        | .indexError => .indexError
        | .ok b2 =>
          if b2 = 0x02 then
            let dist_mm := intFromBytesBE (pySlice data 14 16)
            if dist_mm > 0 then .ok (some dist_mm) else .ok none
          else .ok none
      else .ok none
  else .ok none

lemma byteAt_eq_ok {data : List Byte} {i : Nat} {b : Byte}
    (h : data[i]? = some b) : byteAt data i = .ok b := by
  simp [byteAt, h]

lemma pySlice_14_16 {data : List Byte} {a b : Byte}
    (h14 : data[14]? = some a) (h15 : data[15]? = some b) :
    pySlice data 14 16 = [a, b] := by
  have hlen : 16 ≤ data.length := by
    by_contra hc
    rw [List.getElem?_eq_none (by omega)] at h15
    exact Option.noConfusion h15
  apply List.ext_getElem?
  intro i
  match i with
  | 0 => simp [pySlice, List.getElem?_drop, List.getElem?_take, h14]
  | 1 => simp [pySlice, List.getElem?_drop, List.getElem?_take, h15]
  | (n + 2) =>
      have hl : (pySlice data 14 16).length ≤ n + 2 := by
        simp only [pySlice, List.length_drop, List.length_take]
        omega
      rw [List.getElem?_eq_none hl, List.getElem?_eq_none (by simp)]

lemma intFromBytesBE_pair (a b : Byte) :
    intFromBytesBE [a, b] = a.val * 256 + b.val := by
  simp [intFromBytesBE]

/-- **C1.** A frame of length ≥ 17 with byte 0 = 0x00, byte 2 = 0x02 and
bytes 14-15 = 0x05 0x85 decodes big-endian at offset 14 to the measurement
1413 mm. -/
theorem parse_distance_mm_be_1413 (data : List Byte)
    (hlen : 17 ≤ data.length)
    (h0 : data[0]? = some 0x00) (h2 : data[2]? = some 0x02)
    (h14 : data[14]? = some 0x05) (h15 : data[15]? = some 0x85) :
    parse_distance_mm data = .ok (some 1413) := by
  simp only [parse_distance_mm, if_pos hlen, byteAt_eq_ok h0, byteAt_eq_ok h2,
    pySlice_14_16 h14 h15, intFromBytesBE_pair]
  decide

/-- Witness for C1 on a concrete 17-byte frame. -/
theorem parse_distance_mm_be_1413_witness :
    parse_distance_mm
      [0x00, 0x01, 0x02, 0, 0, 0, 0, 0, 0, 0, 0, 0, 0, 0, 0x05, 0x85, 0] =
      .ok (some 1413) :=
  parse_distance_mm_be_1413 _ (by decide) (by decide) (by decide)
    (by decide) (by decide)

/-- **C2.** Every frame shorter than 17 bytes is rejected: no measurement is
produced (the code returns `None`). -/
theorem parse_distance_mm_too_short (data : List Byte)
    (hlen : data.length < 17) :
    parse_distance_mm data = .ok none := by
  rw [parse_distance_mm, if_neg (by omega)]

/-- Witness for C2 on a concrete 3-byte frame. -/
theorem parse_distance_mm_too_short_witness :
    parse_distance_mm [0x00, 0x01, 0x02] = .ok none :=
  parse_distance_mm_too_short _ (by decide)

/-- **C3.** A frame of length ≥ 17 whose byte 0 is not 0x00 or whose byte 2
is not 0x02 is rejected: no measurement is produced. -/
theorem parse_distance_mm_not_measurement (data : List Byte)
    (hlen : 17 ≤ data.length)
    (h : data[0]? ≠ some 0x00 ∨ data[2]? ≠ some 0x02) :
    parse_distance_mm data = .ok none := by
  have l0 : (0 : Nat) < data.length := by omega
  have l2 : (2 : Nat) < data.length := by omega
  have e0 := List.getElem?_eq_getElem l0
  have e2 := List.getElem?_eq_getElem l2
  simp only [parse_distance_mm, if_pos hlen, byteAt_eq_ok e0, byteAt_eq_ok e2]
  rcases h with h | h
  · rw [if_neg fun hc => h (by rw [e0, hc])]
  · by_cases hb0 : data.get ⟨0, l0⟩ = 0x00
    · rw [List.get_eq_getElem] at hb0
      rw [if_pos hb0, if_neg fun hc => h (by rw [e2, hc])]
    · rw [List.get_eq_getElem] at hb0
      rw [if_neg hb0]

/-- Witness for C3: byte 2 is 0x03, so the frame is not a measurement. -/
theorem parse_distance_mm_not_measurement_witness :
    parse_distance_mm
      [0x00, 0x01, 0x03, 0, 0, 0, 0, 0, 0, 0, 0, 0, 0, 0, 0x05, 0x85, 0] =
      .ok none :=
  parse_distance_mm_not_measurement _ (by decide) (Or.inr (by decide))

/-- **C4.** A frame that passes the length and frame-type checks but whose
big-endian field at offset 14 is 0 is rejected, and a measurement of value 0
is never produced on any input. -/
theorem parse_distance_mm_zero_guard (data : List Byte) :
    (17 ≤ data.length → data[0]? = some 0x00 → data[2]? = some 0x02 →
      intFromBytesBE (pySlice data 14 16) = 0 →
      parse_distance_mm data = .ok none) ∧
    parse_distance_mm data ≠ .ok (some 0) := by
  constructor
  · intro hlen h0 h2 hz
    simp [parse_distance_mm, if_pos hlen, byteAt_eq_ok h0, byteAt_eq_ok h2, hz]
  · unfold parse_distance_mm
    by_cases hlen : 17 ≤ data.length
    · have e0 := List.getElem?_eq_getElem (show 0 < data.length by omega)
      have e2 := List.getElem?_eq_getElem (show 2 < data.length by omega)
      simp only [if_pos hlen, byteAt_eq_ok e0, byteAt_eq_ok e2]
      split_ifs with h1 h2 h3 <;> simp
      omega
    · rw [if_neg hlen]
      simp

/-- Witness for C4: valid framing, zero field at offset 14, rejected. -/
theorem parse_distance_mm_zero_guard_witness :
    parse_distance_mm
      [0x00, 0x01, 0x02, 0, 0, 0, 0, 0, 0, 0, 0, 0, 0, 0, 0x00, 0x00, 0] =
      .ok none :=
  (parse_distance_mm_zero_guard _).1 (by decide) (by decide) (by decide)
    (by decide)

/-- **C9.** The decoder is total: on every byte sequence, including those
shorter than 17 bytes, it returns normally and never performs an
out-of-range access (the fixed-offset reads are guarded by the length
check, which is evaluated first by short-circuiting). -/
theorem parse_distance_mm_total (data : List Byte) :
    parse_distance_mm data ≠ .indexError := by
  unfold parse_distance_mm
  by_cases hlen : 17 ≤ data.length
  · have e0 := List.getElem?_eq_getElem (show 0 < data.length by omega)
    have e2 := List.getElem?_eq_getElem (show 2 < data.length by omega)
    simp only [if_pos hlen, byteAt_eq_ok e0, byteAt_eq_ok e2]
    split_ifs <;> simp
  · rw [if_neg hlen]
    simp

lemma intFromBytesBE_lt_aux (bs : List Byte) :
    ∀ acc : Nat, bs.foldl (fun acc b => acc * 256 + b.val) acc <
      (acc + 1) * 256 ^ bs.length := by
  induction bs with
  | nil => intro acc; simp
  | cons b bs ih =>
      intro acc
      have hb : b.val < 256 := b.isLt
      calc (b :: bs).foldl (fun acc b => acc * 256 + b.val) acc
          = bs.foldl (fun acc b => acc * 256 + b.val) (acc * 256 + b.val) := by
            simp
        _ < (acc * 256 + b.val + 1) * 256 ^ bs.length := ih _
        _ ≤ ((acc + 1) * 256) * 256 ^ bs.length := by
            have : acc * 256 + b.val + 1 ≤ (acc + 1) * 256 := by omega
            exact Nat.mul_le_mul_right _ this
        _ = (acc + 1) * 256 ^ (b :: bs).length := by ring_nf; simp [pow_succ]; ring

lemma intFromBytesBE_lt (bs : List Byte) :
    intFromBytesBE bs < 256 ^ bs.length :=
  by simpa using intFromBytesBE_lt_aux bs 0

lemma parse_some_bounds {data : List Byte} {v : Nat}
    (h : parse_distance_mm data = .ok (some v)) : 1 ≤ v ∧ v ≤ 65535 := by
  unfold parse_distance_mm at h
  by_cases hlen : 17 ≤ data.length
  · have e0 := List.getElem?_eq_getElem (show 0 < data.length by omega)
    have e2 := List.getElem?_eq_getElem (show 2 < data.length by omega)
    simp only [if_pos hlen, byteAt_eq_ok e0, byteAt_eq_ok e2] at h
    split_ifs at h with h1 h2 h3
    · have hv : v = intFromBytesBE (pySlice data 14 16) := by
        cases h; rfl
      have hlt : intFromBytesBE (pySlice data 14 16) <
          256 ^ (pySlice data 14 16).length := intFromBytesBE_lt _
      have hsl : (pySlice data 14 16).length ≤ 2 := by
        simp only [pySlice, List.length_drop, List.length_take]
        omega
      have : 256 ^ (pySlice data 14 16).length ≤ 256 ^ 2 :=
        Nat.pow_le_pow_right (by omega) hsl
      omega
    all_goals simp at h
  · rw [if_neg hlen] at h
    simp at h

/-- **C10.** Whenever the decoder produces a measurement, its value `v`
satisfies `1 ≤ v ≤ 65535`: it is read from exactly two bytes, and the zero
guard excludes 0. -/
theorem parse_distance_mm_bounds (data : List Byte) (v : Nat)
    (h : parse_distance_mm data = .ok (some v)) : 1 ≤ v ∧ v ≤ 65535 :=
  parse_some_bounds h

/-- Witness for C10 at a concrete frame decoding to 1413. -/
theorem parse_distance_mm_bounds_witness : 1 ≤ 1413 ∧ 1413 ≤ 65535 :=
  parse_distance_mm_bounds
    [0x00, 0x01, 0x02, 0, 0, 0, 0, 0, 0, 0, 0, 0, 0, 0, 0x05, 0x85, 0]
    1413 (by decide)

/-! ## Characteristic resolution (src/ir40-dbus-final.py, lines 93-98)

Python strings are `List Char`; `strStartsWith s pre` is `s.startswith(pre)`
and `strLower` is `str.lower` (ASCII letters, as `Char.toLower`). -/

abbrev PyStr := List Char

def strStartsWith (s pre : PyStr) : Bool :=
  match s, pre with
  | _, [] => true
  | [], _ => false
  | c :: cs, p :: ps => c == p && strStartsWith cs ps

def strLower (s : PyStr) : PyStr := s.map Char.toLower

def WRITE_UUID : PyStr := "0000ee03-0000-1000-8000-00805f9b34fb".data

def NOTIFY_UUID : PyStr := "0000ee02-0000-1000-8000-00805f9b34fb".data

/-- One entry of the D-Bus managed-object dictionary, as the resolution loop
sees it: its object path, whether its interface set contains
`org.bluez.GattCharacteristic1`, and the `UUID` property of that interface
(only read when `isGattChar` is true, as in the source). -/
structure GattEntry where
  path : PyStr
  isGattChar : Bool
  uuid : PyStr
  deriving DecidableEq, Repr

/-- One iteration of the loop at lines 94-98:

    for path, ifaces in objs.items():
        if 'org.bluez.GattCharacteristic1' in ifaces and path.startswith(device_path):
            uuid = ifaces['org.bluez.GattCharacteristic1']['UUID'].value.lower()
            if uuid == WRITE_UUID: write_path = path
            elif uuid == NOTIFY_UUID: notify_path = path

The accumulator is the pair `(write_path, notify_path)`. -/
def charStep (devicePath : PyStr) (acc : Option PyStr × Option PyStr)
    (e : GattEntry) : Option PyStr × Option PyStr :=
  if e.isGattChar && strStartsWith e.path devicePath then
    let uuid := strLower e.uuid
    if uuid == WRITE_UUID then (some e.path, acc.2)
    else if uuid == NOTIFY_UUID then (acc.1, some e.path)
    else acc
  else acc

/-- The whole loop at lines 93-98, starting from
`write_path = notify_path = None`. Python dictionaries iterate in insertion
order, so the dictionary is embedded as the list `objs` in that order. -/
def findCharPaths (objs : List GattEntry) (devicePath : PyStr) :
    Option PyStr × Option PyStr :=
  objs.foldl (charStep devicePath) (none, none)

/-- The condition under which an entry assigns `write_path`. -/
def isWriteMatch (devicePath : PyStr) (e : GattEntry) : Bool :=
  e.isGattChar && strStartsWith e.path devicePath &&
    (strLower e.uuid == WRITE_UUID)

/-- The condition under which an entry assigns `notify_path` (the `elif`
branch: not a write match, and the UUID equals the notify UUID). -/
def isNotifyMatch (devicePath : PyStr) (e : GattEntry) : Bool :=
  e.isGattChar && strStartsWith e.path devicePath &&
    !(strLower e.uuid == WRITE_UUID) && (strLower e.uuid == NOTIFY_UUID)

lemma charStep_fst (dp : PyStr) (acc : Option PyStr × Option PyStr)
    (e : GattEntry) :
    (charStep dp acc e).1 =
      if isWriteMatch dp e then some e.path else acc.1 := by
  unfold charStep isWriteMatch
  cases hg : e.isGattChar <;> cases hp : strStartsWith e.path dp <;>
    cases hw : strLower e.uuid == WRITE_UUID <;>
    cases hn : strLower e.uuid == NOTIFY_UUID <;>
    simp [hg, hp, hw, hn]

lemma charStep_snd (dp : PyStr) (acc : Option PyStr × Option PyStr)
    (e : GattEntry) :
    (charStep dp acc e).2 =
      if isNotifyMatch dp e then some e.path else acc.2 := by
  unfold charStep isNotifyMatch
  cases hg : e.isGattChar <;> cases hp : strStartsWith e.path dp <;>
    cases hw : strLower e.uuid == WRITE_UUID <;>
    cases hn : strLower e.uuid == NOTIFY_UUID <;>
    simp [hg, hp, hw, hn]

lemma foldl_charStep_fst (dp : PyStr) (objs : List GattEntry) :
    ∀ acc, (objs.foldl (charStep dp) acc).1 =
      Option.or ((objs.filter (isWriteMatch dp)).getLast?.map GattEntry.path)
        acc.1 := by
  induction objs with
  | nil => intro acc; simp
  | cons e objs ih =>
      intro acc
      rw [List.foldl_cons, ih]
      cases hw : isWriteMatch dp e
      · rw [List.filter_cons_of_neg (by simp [hw])]
        simp [charStep_fst, hw]
      · rw [List.filter_cons_of_pos hw]
        cases hF : (objs.filter (isWriteMatch dp)).getLast? with
        | none => simp [List.getLast?_cons, hF, charStep_fst, hw]
        | some x => simp [List.getLast?_cons, hF, charStep_fst, hw]

lemma foldl_charStep_snd (dp : PyStr) (objs : List GattEntry) :
    ∀ acc, (objs.foldl (charStep dp) acc).2 =
      Option.or ((objs.filter (isNotifyMatch dp)).getLast?.map GattEntry.path)
        acc.2 := by
  induction objs with
  | nil => intro acc; simp
  | cons e objs ih =>
      intro acc
      rw [List.foldl_cons, ih]
      cases hn : isNotifyMatch dp e
      · rw [List.filter_cons_of_neg (by simp [hn])]
        simp [charStep_snd, hn]
      · rw [List.filter_cons_of_pos hn]
        cases hF : (objs.filter (isNotifyMatch dp)).getLast? with
        | none => simp [List.getLast?_cons, hF, charStep_snd, hn]
        | some x => simp [List.getLast?_cons, hF, charStep_snd, hn]

/-- A GATT tree with two characteristics under `/dev`, both carrying the
write UUID; the loop overwrites `write_path` on the second match. -/
def gattTwoWrites : List GattEntry :=
  [⟨"/dev/a".data, true, "0000ee03-0000-1000-8000-00805f9b34fb".data⟩,
   ⟨"/dev/b".data, true, "0000ee03-0000-1000-8000-00805f9b34fb".data⟩]

/-- **C5 counterexample.** On a tree where two characteristics under the
device path match the write UUID, resolution returns the path of the second
(the last encountered), not the first encountered as claimed: the first
matching entry is `/dev/a`, but the loop yields `/dev/b`. -/
theorem findCharPaths_not_first :
    (findCharPaths gattTwoWrites "/dev".data).1 = some "/dev/b".data ∧
    (gattTwoWrites.filter (isWriteMatch "/dev".data)).head?.map
      GattEntry.path = some "/dev/a".data ∧
    ("/dev/b".data == "/dev/a".data) = false := by
  refine ⟨by decide, by decide, by decide⟩

/-- **C5 amended.** When several characteristics under the device path match
a target UUID, the loop keeps the path of the *last* matching entry in
enumeration order (for the write UUID and the notify UUID alike); with no
match the path stays unresolved. -/
theorem findCharPaths_last_match (objs : List GattEntry) (dp : PyStr) :
    (findCharPaths objs dp).1 =
      (objs.filter (isWriteMatch dp)).getLast?.map GattEntry.path ∧
    (findCharPaths objs dp).2 =
      (objs.filter (isNotifyMatch dp)).getLast?.map GattEntry.path := by
  constructor
  · rw [findCharPaths, foldl_charStep_fst]
    cases (objs.filter (isWriteMatch dp)).getLast?.map GattEntry.path <;> rfl
  · rw [findCharPaths, foldl_charStep_snd]
    cases (objs.filter (isNotifyMatch dp)).getLast?.map GattEntry.path <;> rfl

/-! ## Session actions after resolution (src/ir40-dbus-final.py, lines 100-130) -/

inductive SessionAction where
  | subscribeNotify
  | startHeartbeat
  | armed
  deriving DecidableEq, Repr

/-- The transport actions `main` performs after the resolution loop, as a
function of the resolved pair `(write_path, notify_path)`.
`bus.introspect` requires a string object path and raises on `None`,
aborting `main` unhandled at that point, so:
* `notify_path = None` aborts at line 101, before `call_start_notify`;
* `write_path = None` aborts at line 118: `call_start_notify` (line 115) was
  already issued, but the heartbeat task (line 122) never starts and the
  session never reaches the armed trigger loop (lines 124-130);
* with both paths present the session subscribes, starts the heartbeat task
  and arms. -/
def postResolveActions : Option PyStr × Option PyStr → List SessionAction
  | (_, none) => []
  | (none, some _) => [.subscribeNotify]
  | (some _, some _) => [.subscribeNotify, .startHeartbeat, .armed]

/-- A GATT tree whose only characteristic carries the notify UUID: the write
UUID has zero matches. -/
def gattNotifyOnly : List GattEntry :=
  [⟨"/dev/n".data, true, "0000ee02-0000-1000-8000-00805f9b34fb".data⟩]

/-- **C6 counterexample.** On a tree where the write UUID has zero matching
characteristics (and the notify UUID has one), the session still issues
start-notify: resolution yields no write path, yet `subscribeNotify` is in
the action trace, contradicting the claim that start-notify is never issued
when either UUID is unmatched. -/
theorem startNotify_issued_without_write :
    (findCharPaths gattNotifyOnly "/dev".data).1 = none ∧
    SessionAction.subscribeNotify ∈
      postResolveActions (findCharPaths gattNotifyOnly "/dev".data) := by
  refine ⟨by decide, by decide⟩

/-- **C6 amended.** If the notify UUID has zero matches, the session aborts
before start-notify is issued; if either UUID has zero matches, the session
fails (an unhandled error aborts `main`) before the heartbeat task starts
and before the session arms — but a missing write path alone does not
prevent start-notify from being issued first. -/
theorem postResolve_fails_closed (objs : List GattEntry) (dp : PyStr) :
    ((findCharPaths objs dp).2 = none →
      postResolveActions (findCharPaths objs dp) = []) ∧
    ((findCharPaths objs dp).1 = none ∨ (findCharPaths objs dp).2 = none →
      SessionAction.armed ∉ postResolveActions (findCharPaths objs dp) ∧
      SessionAction.startHeartbeat ∉
        postResolveActions (findCharPaths objs dp)) := by
  rcases hr : findCharPaths objs dp with ⟨w, n⟩
  cases w <;> cases n <;> simp [postResolveActions]

/-- Witness for the amended C6: a tree with no notify match issues no action
at all, and a tree with no write match never arms nor starts the
heartbeat. -/
theorem postResolve_fails_closed_witness :
    postResolveActions (findCharPaths gattTwoWrites "/dev".data) = [] ∧
    (SessionAction.armed ∉
        postResolveActions (findCharPaths gattNotifyOnly "/dev".data) ∧
      SessionAction.startHeartbeat ∉
        postResolveActions (findCharPaths gattNotifyOnly "/dev".data)) :=
  ⟨(postResolve_fails_closed gattTwoWrites "/dev".data).1 (by decide),
   (postResolve_fails_closed gattNotifyOnly "/dev".data).2
     (Or.inl (by decide))⟩

/-! ## The services-resolved poll (src/ir40-dbus-final.py, lines 84-85) -/

/-- Outcome of observing the poll loop for a bounded number of checks.
`failedServicesNotResolved` is the outcome the specification prescribes once
a retry budget is exhausted; the loop in the source has no failure branch
and never produces it. -/
inductive PollOutcome where
  | resolved (attempts : Nat)
  | stillPolling
  | failedServicesNotResolved
  deriving DecidableEq, Repr

/-- The poll interval of line 85 (`await asyncio.sleep(0.5)`), in tenths of
a second. -/
def pollIntervalDeciseconds : Nat := 5

/-- Embedding of lines 84-85:

    while not await device_iface.get_services_resolved():
        await asyncio.sleep(0.5)

`resolvedAt n` is the value of `ServicesResolved` at the n-th check; `fuel`
is how many checks we observe. The loop exits as soon as a check returns
true and otherwise just sleeps and retries: there is no retry cap. -/
def servicesPoll (resolvedAt : Nat → Bool) : Nat → PollOutcome
  | 0 => .stillPolling
  | fuel + 1 =>
      if resolvedAt 0 then .resolved 0
      else
        match servicesPoll (fun n => resolvedAt (n + 1)) fuel with
        | .resolved k => .resolved (k + 1)
        | out => out

/-- **C7 counterexample.** With services never resolving, after 31 checks —
beyond the claimed cap of ~30 attempts — the loop is still polling and has
not terminated in `Failed(ServicesNotResolved)`. -/
theorem servicesPoll_still_polling_after_31 :
    servicesPoll (fun _ => false) 31 = .stillPolling ∧
    servicesPoll (fun _ => false) 31 ≠ .failedServicesNotResolved := by
  refine ⟨by decide, by decide⟩

/-- **C7 amended.** The poll runs at a fixed 0.5 s interval but is
unbounded: it never terminates in `Failed(ServicesNotResolved)` for any
resolution oracle and any number of observed checks, and if services never
resolve it is still polling after any number of checks. -/
theorem servicesPoll_never_fails (resolvedAt : Nat → Bool) (fuel : Nat) :
    servicesPoll resolvedAt fuel ≠ PollOutcome.failedServicesNotResolved ∧
    servicesPoll (fun _ => false) fuel = PollOutcome.stillPolling := by
  induction fuel generalizing resolvedAt with
  | zero => exact ⟨by simp [servicesPoll], rfl⟩
  | succ fuel ih =>
      constructor
      · simp only [servicesPoll]
        by_cases h0 : resolvedAt 0 = true
        · simp [h0]
        · simp only [h0, if_false, Bool.false_eq_true]
          cases hrec : servicesPoll (fun n => resolvedAt (n + 1)) fuel with
          | resolved k => simp
          | stillPolling => simp
          | failedServicesNotResolved =>
              exact absurd hrec (ih (fun n => resolvedAt (n + 1))).1
      · simp only [servicesPoll, if_false, Bool.false_eq_true]
        rw [(ih (fun _ => false)).2]

/-! ## Heartbeat loop and armed phase (src/ir40-dbus-final.py, lines 61-68,
122, 128-130)

    async def heartbeat_loop(write_iface):
        while True:
            try:
                await write_iface.call_write_value(HEARTBEAT_PAYLOAD, ...)
                await asyncio.sleep(25)
            except:
                break

    asyncio.create_task(heartbeat_loop(write_iface))   # line 122
    while True:                                        # lines 128-130
        await ... input ...
        await write_iface.call_write_value(TRIGGER_PAYLOAD, ...)

The heartbeat task and the trigger loop share no state: `create_task`'s
result is never awaited, so a `break` in the heartbeat task is invisible to
`main`, which keeps serving trigger writes. -/

/-- The heartbeat interval of line 66 (`await asyncio.sleep(25)`), in
seconds. -/
def heartbeatIntervalSeconds : Nat := 25

inductive WriteCmd where
  | heartbeat
  | trigger
  deriving DecidableEq, Repr

/-- Events observed while the session is armed: the heartbeat timer firing,
or the user pressing ENTER. -/
inductive ArmedEvent where
  | hbTick
  | enterPress
  deriving DecidableEq, Repr

/-- `hbAlive`: the heartbeat task has not yet hit `break`; `hbCount`: how
many heartbeat writes have been attempted. -/
structure ArmedState where
  hbAlive : Bool
  hbCount : Nat
  deriving DecidableEq, Repr

def initialArmed : ArmedState := { hbAlive := true, hbCount := 0 }

/-- One armed-phase event. `writeOk n` tells whether the n-th heartbeat
write succeeds; a raising write hits the bare `except: break`, after which
the task never runs again. An ENTER press issues a trigger write (line 130)
unconditionally: nothing in `main` consults the heartbeat task. -/
def armedStep (writeOk : Nat → Bool) (s : ArmedState) :
    ArmedEvent → ArmedState × List WriteCmd
  | .hbTick =>
      if s.hbAlive then
        ({ hbAlive := writeOk s.hbCount, hbCount := s.hbCount + 1 },
          [.heartbeat])
      else (s, [])
  | .enterPress => (s, [.trigger])

/-- Run the armed phase over a sequence of events, collecting the writes
issued to the write characteristic. -/
def armedRun (writeOk : Nat → Bool) :
    ArmedState → List ArmedEvent → ArmedState × List WriteCmd
  | s, [] => (s, [])
  | s, ev :: rest =>
      let p := armedStep writeOk s ev
      let q := armedRun writeOk p.1 rest
      (q.1, p.2 ++ q.2)

/-- **C8 counterexample.** With the first heartbeat write raising, the run
`[hbTick, enterPress, hbTick]` issues exactly `[heartbeat, trigger]`: the
heartbeat loop stopped after the failing write, yet the session still
serves a trigger write afterwards — it keeps operating instead of being in
a terminal `Failed(HeartbeatError)` state, which would preclude any further
write. -/
theorem heartbeat_failure_not_terminal :
    (armedRun (fun _ => false) initialArmed
      [.hbTick, .enterPress, .hbTick]).2 = [.heartbeat, .trigger] ∧
    (armedRun (fun _ => false) initialArmed
      [.hbTick, .enterPress, .hbTick]).1.hbAlive = false := by
  refine ⟨by decide, by decide⟩

lemma armedRun_dead_hb (writeOk : Nat → Bool) (events : List ArmedEvent) :
    ∀ s : ArmedState, s.hbAlive = false →
      (armedRun writeOk s events).2.count WriteCmd.heartbeat = 0 ∧
      (armedRun writeOk s events).2.count WriteCmd.trigger =
        events.count ArmedEvent.enterPress := by
  induction events with
  | nil => intro s hs; simp [armedRun]
  | cons ev rest ih =>
      intro s hs
      cases ev with
      | hbTick =>
          have hstep : armedStep writeOk s .hbTick = (s, []) := by
            simp [armedStep, hs]
          simp [armedRun, hstep, ih s hs, List.count_cons]
      | enterPress =>
          simp [armedRun, armedStep, ih s hs, List.count_cons,
            List.count_append]

/-- **C8 amended.** After a heartbeat write raises, the keep-alive loop
stops and never issues another heartbeat write — but the session does not
transition to `Failed(HeartbeatError)`: the failure is swallowed silently
and every later ENTER press still issues a trigger write. -/
theorem heartbeat_stops_session_continues (writeOk : Nat → Bool)
    (events : List ArmedEvent) (h0 : writeOk 0 = false) :
    (armedRun writeOk initialArmed
      (ArmedEvent.hbTick :: events)).2.count WriteCmd.heartbeat = 1 ∧
    (armedRun writeOk initialArmed
      (ArmedEvent.hbTick :: events)).2.count WriteCmd.trigger =
      events.count ArmedEvent.enterPress := by
  have hstep : armedStep writeOk initialArmed .hbTick =
      ({ hbAlive := false, hbCount := 1 }, [.heartbeat]) := by
    simp [armedStep, initialArmed, h0]
  have hdead := armedRun_dead_hb writeOk events
    { hbAlive := false, hbCount := 1 } rfl
  simp [armedRun, hstep, hdead.1, hdead.2, List.count_cons,
    List.count_append]

/-- Witness for the amended C8: first write fails, one ENTER press follows;
exactly one heartbeat attempt and exactly one trigger write occur. -/
theorem heartbeat_stops_session_continues_witness :
    (armedRun (fun _ => false) initialArmed
      [ArmedEvent.hbTick, ArmedEvent.enterPress]).2.count
        WriteCmd.heartbeat = 1 ∧
    (armedRun (fun _ => false) initialArmed
      [ArmedEvent.hbTick, ArmedEvent.enterPress]).2.count
        WriteCmd.trigger =
      List.count ArmedEvent.enterPress [ArmedEvent.enterPress] :=
  heartbeat_stops_session_continues (fun _ => false) [ArmedEvent.enterPress]
    rfl
